import Mathlib

/-!
Shallow embedding of the bulk-job orchestrator of `sf-utils-node`
(`lib/bulk.js`, function `runBulkApiJob`) together with the CLI-side
validation of the `bulk` command (the `sfu bulk` action).

The orchestrator is an async function performing a fixed sequence of
remote calls (connection-test query, object describe, job creation,
CSV upload, job close, status fetches, two result fetches).  We embed
it as a pure function of an `Env` that records the response each remote
endpoint would give; the function returns the final `Except` result,
the parsed result collections, the recorded diagnostics, and the exact
ordered list of remote calls it issued.
-/

namespace SfUtils

/-- Status object returned by the job-status endpoint
(`state`, `numberRecordsProcessed`, `numberRecordsFailed`). -/
structure JobStatus where
  state : String
  numberRecordsProcessed : Nat
  numberRecordsFailed : Nat
deriving DecidableEq, Repr

/-- Response of the job-creation endpoint (only the `id` field is used). -/
structure JobInfo where
  id : String
deriving DecidableEq, Repr

instance {α β : Type} [DecidableEq α] [DecidableEq β] :
    DecidableEq (Except α β) := fun a b =>
  match a, b with
  | Except.ok x, Except.ok y =>
    if h : x = y then isTrue (by rw [h]) else isFalse (by simp [h])
  | Except.error x, Except.error y =>
    if h : x = y then isTrue (by rw [h]) else isFalse (by simp [h])
  | Except.ok _, Except.error _ => isFalse (by simp)
  | Except.error _, Except.ok _ => isFalse (by simp)

/-- One remote call issued by the orchestrator, in the order the source
issues them.  `statusFetch jid i` is the `i`-th GET of the job-status
endpoint (`i = 0` is the initial fetch before the poll loop). -/
inductive RemoteCall where
  | query : RemoteCall
  | describe : String → RemoteCall
  | createJob : String → String → Option String → RemoteCall
  | uploadBatch : String → RemoteCall
  | closeJob : String → RemoteCall
  | statusFetch : String → Nat → RemoteCall
  | fetchSuccessful : String → RemoteCall
  | fetchFailed : String → RemoteCall
deriving DecidableEq, Repr

/-- Environment: the response each remote endpoint (and the local file
read) would produce.  `statuses i` is the response of the `i`-th GET of
the status endpoint. -/
structure Env where
  sObject : String
  operation : String
  externalIdFieldName : Option String
  queryResult : Except String Unit
  describeResult : Except String Unit
  readResult : Except String String
  createResult : Except String JobInfo
  uploadResult : Except String Unit
  closeResult : Except String Unit
  statuses : Nat → Except String JobStatus
  successfulBody : Except String String
  failedBody : Except String String

/-- A parsed result row: ordered association of column name to cell value,
as produced by `csv-parse` with `columns: true`. -/
abbrev Row := List (String × String)

/-- Everything observable about one orchestration run. -/
structure BulkRun where
  result : Except String JobStatus
  successfulResults : List Row
  failedResults : List Row
  diagnostics : List String
  calls : List RemoteCall

/-- Split a character list on a separator character; mirrors
`String.splitOn` for a one-character separator (the source only ever
splits on `"\n"` and `","`). -/
def splitOnChar (sep : Char) : List Char → List (List Char)
  | [] => [[]]
  | c :: cs =>
    let r := splitOnChar sep cs
    if c == sep then [] :: r
    else
      match r with
      | [] => [[c]]
      | g :: gs => (c :: g) :: gs

/-- `String.prototype.trim()`: strip leading and trailing whitespace.
Whitespace is the ASCII whitespace class; the claims only exercise
spaces and newlines. -/
def jsTrim (s : String) : String :=
  String.mk (((s.data.dropWhile Char.isWhitespace).reverse.dropWhile
    Char.isWhitespace).reverse)

/-- Is `pre` a prefix of `l`? -/
def charsPrefixOf : List Char → List Char → Bool
  | [], _ => true
  | _ :: _, [] => false
  | a :: as, b :: bs => a == b && charsPrefixOf as bs

/-- Does `hay` contain `needle` as a contiguous run? -/
def charsInfixOf (needle : List Char) : List Char → Bool
  | [] => charsPrefixOf needle []
  | b :: bs => charsPrefixOf needle (b :: bs) || charsInfixOf needle bs

/-- JavaScript truthiness test used on `externalIdFieldName` and
`options.externalId` (`undefined` and the empty string are falsy). -/
def jsFalsy : Option String → Bool
  | none => true
  | some s => s.isEmpty

/-- `externalIdFieldName || undefined` in the job-creation request body
(`lib/bulk.js` line 39). -/
def reqExternalId (o : Option String) : Option String :=
  if jsFalsy o then none else o

/-- Poll ceiling: `const maxPollAttempts = 60` (`lib/bulk.js` line 78). -/
def maxPollAttempts : Nat := 60

/-- The loop guard of `lib/bulk.js` line 80: the loop runs while the state
is none of `JobComplete`, `Failed`, `Aborted`; equivalently it stops
exactly on these three. -/
def isTerminalState (s : String) : Bool :=
  s == "JobComplete" || s == "Failed" || s == "Aborted"

/-- Lines fed to the CSV parser: split on the LF line ending; a trailing
newline does not create an extra (empty) record. -/
def csvLines (data : String) : List String :=
  let ls := (splitOnChar '\n' data.data).map String.mk
  match ls.getLast? with
  | some "" => ls.dropLast
  | _ => ls

/-- `csv-parse` with `columns: true` (`lib/bulk.js` lines 112-121): the
first line gives the column names in order; each later line becomes a
record mapping column name to cell value; a record whose field count
differs from the header's is a parse error (the stream rejects).  Cell
quoting is not exercised by this repository's inputs and is not
modelled. -/
def csvParseColumns (data : String) : Except String (List Row) :=
  match csvLines data with
  | [] => Except.ok []
  | header :: rest =>
    let cols := (splitOnChar ',' header.data).map String.mk
    rest.mapM (fun line =>
      let fields := (splitOnChar ',' line.data).map String.mk
      if fields.length = cols.length then
        Except.ok (cols.zip fields)
      else
        Except.error ("Invalid Record Length: expect " ++ toString cols.length
          ++ ", got " ++ toString fields.length))

/-- Handling of one results body (`lib/bulk.js` lines 111-124): a body that
is empty after trimming is not parsed at all and yields no records; a
non-empty body is run through the CSV parser. -/
def parseResultBody (data : String) : Except String (List Row) :=
  if jsTrim data == "" then Except.ok []
  else csvParseColumns data

/-- One results-endpoint round trip (`lib/bulk.js` lines 95-127 and
139-171): a fetch failure or a parse failure is caught inside the step's
own try/catch and yields an empty collection plus the `console.error`
diagnostic; a clean fetch+parse yields the parsed rows. -/
def fetchResultRows (body : Except String String) (label : String) :
    List Row × List String :=
  match body with
  | Except.error m =>
    ([], ["DEBUG: Failed to fetch/parse " ++ label ++ " results: " ++ m])
  | Except.ok data =>
    match parseResultBody data with
    | Except.ok rows => (rows, [])
    | Except.error m =>
      ([], ["DEBUG: Failed to fetch/parse " ++ label ++ " results: " ++ m])

/-- The poll loop of `lib/bulk.js` lines 78-90, written with
`fuel = maxPollAttempts - pollCount` so that the recursion is structural:
the source's guard `pollCount >= maxPollAttempts` is exactly `fuel = 0`,
and the fetch done when `pollCount = c` is status fetch number `c + 1`,
i.e. `maxPollAttempts - fuel + 1`.  Returns the loop's outcome and the
status-fetch calls it issued. -/
def pollLoop (statuses : Nat → Except String JobStatus) (jid : String) :
    JobStatus → Nat → Except String JobStatus × List RemoteCall
  | js, fuel =>
    if isTerminalState js.state then
      (Except.ok js, [])
    else
      match fuel with
      | 0 => (Except.error "Job status polling timed out after 5 minutes.", [])
      | fuel' + 1 =>
        let i := maxPollAttempts - fuel'
        match statuses i with
        | Except.error m =>
          (Except.error ("Error checking job status: " ++ m),
           [RemoteCall.statusFetch jid i])
        | Except.ok js' =>
          let r := pollLoop statuses jid js' fuel'
          (r.1, RemoteCall.statusFetch jid i :: r.2)

/-- Body of the outer `try` of `runBulkApiJob` (`lib/bulk.js` lines 8-184):
connection-test query, object describe, CSV read and emptiness check, job
creation, upload, close, initial status fetch, poll loop, and the gated
result processing.  Remote calls are recorded in issue order. -/
def runBulkInner (env : Env) : BulkRun :=
  match env.queryResult with
  | Except.error m =>
    ⟨Except.error ("Connection test failed: " ++ m), [], [], [],
      [RemoteCall.query]⟩
  | Except.ok _ =>
  match env.describeResult with
  | Except.error m =>
    ⟨Except.error ("Invalid or inaccessible object \"" ++ env.sObject
       ++ "\": " ++ m), [], [], [],
      [RemoteCall.query, RemoteCall.describe env.sObject]⟩
  | Except.ok _ =>
  match env.readResult with
  | Except.error m =>
    ⟨Except.error ("Error reading CSV file: " ++ m), [], [], [],
      [RemoteCall.query, RemoteCall.describe env.sObject]⟩
  | Except.ok csvContent =>
  if jsTrim csvContent == "" then
    ⟨Except.error "CSV file is empty.", [], [], [],
      [RemoteCall.query, RemoteCall.describe env.sObject]⟩
  else
  match env.createResult with
  | Except.error m =>
    ⟨Except.error ("Error creating job: " ++ m), [], [], [],
      [RemoteCall.query, RemoteCall.describe env.sObject,
       RemoteCall.createJob env.sObject env.operation
         (reqExternalId env.externalIdFieldName)]⟩
  | Except.ok jobInfo =>
  match env.uploadResult with
  | Except.error m =>
    ⟨Except.error ("Error uploading CSV data: " ++ m), [], [], [],
      [RemoteCall.query, RemoteCall.describe env.sObject,
       RemoteCall.createJob env.sObject env.operation
         (reqExternalId env.externalIdFieldName),
       RemoteCall.uploadBatch jobInfo.id]⟩
  | Except.ok _ =>
  match env.closeResult with
  | Except.error m =>
    ⟨Except.error ("Error closing job: " ++ m), [], [], [],
      [RemoteCall.query, RemoteCall.describe env.sObject,
       RemoteCall.createJob env.sObject env.operation
         (reqExternalId env.externalIdFieldName),
       RemoteCall.uploadBatch jobInfo.id, RemoteCall.closeJob jobInfo.id]⟩
  | Except.ok _ =>
  match env.statuses 0 with
  | Except.error m =>
    ⟨Except.error ("Error retrieving job status: " ++ m), [], [], [],
      [RemoteCall.query, RemoteCall.describe env.sObject,
       RemoteCall.createJob env.sObject env.operation
         (reqExternalId env.externalIdFieldName),
       RemoteCall.uploadBatch jobInfo.id, RemoteCall.closeJob jobInfo.id,
       RemoteCall.statusFetch jobInfo.id 0]⟩
  | Except.ok js0 =>
  match pollLoop env.statuses jobInfo.id js0 maxPollAttempts with
  | (Except.error m, pt) =>
    ⟨Except.error m, [], [], [],
      RemoteCall.query :: RemoteCall.describe env.sObject ::
      RemoteCall.createJob env.sObject env.operation
        (reqExternalId env.externalIdFieldName) ::
      RemoteCall.uploadBatch jobInfo.id :: RemoteCall.closeJob jobInfo.id ::
      RemoteCall.statusFetch jobInfo.id 0 :: pt⟩
  | (Except.ok js, pt) =>
    if 0 < js.numberRecordsProcessed ∨ 0 < js.numberRecordsFailed then
      let sres := fetchResultRows env.successfulBody "successful"
      let fres := fetchResultRows env.failedBody "failed"
      ⟨Except.ok js, sres.1, fres.1, sres.2 ++ fres.2,
        RemoteCall.query :: RemoteCall.describe env.sObject ::
        RemoteCall.createJob env.sObject env.operation
          (reqExternalId env.externalIdFieldName) ::
        RemoteCall.uploadBatch jobInfo.id :: RemoteCall.closeJob jobInfo.id ::
        RemoteCall.statusFetch jobInfo.id 0 ::
        (pt ++ [RemoteCall.fetchSuccessful jobInfo.id,
                RemoteCall.fetchFailed jobInfo.id])⟩
    else
      ⟨Except.ok js, [], [], [],
        RemoteCall.query :: RemoteCall.describe env.sObject ::
        RemoteCall.createJob env.sObject env.operation
          (reqExternalId env.externalIdFieldName) ::
        RemoteCall.uploadBatch jobInfo.id :: RemoteCall.closeJob jobInfo.id ::
        RemoteCall.statusFetch jobInfo.id 0 :: pt⟩

/-- `runBulkApiJob` with its outer catch (`lib/bulk.js` lines 185-187):
any error thrown inside is rethrown as
`Bulk API job failed: <inner message>`. -/
def runBulkApiJob (env : Env) : BulkRun :=
  let r := runBulkInner env
  match r.result with
  | Except.error m =>
    { r with result := Except.error ("Bulk API job failed: " ++ m) }
  | Except.ok _ => r

/-- `options.operation.charAt(0).toUpperCase() + options.operation.slice(1).toLowerCase()`
(the `bulk` command action). -/
def capitalizeOp (s : String) : String :=
  match s.data with
  | [] => ""
  | c :: cs => String.mk (c.toUpper :: cs.map Char.toLower)

/-- The operations the `bulk` command accepts. -/
def validOps : List String := ["Insert", "Update", "Upsert", "Delete"]

/-- CLI-side validation of the `bulk` command action: normalizes the
operation's capitalization, rejects unknown operations, and rejects
`Upsert` without an external-id option; on success returns the
normalized operation.  Both rejections happen before any connection is
initialized or any remote call is made. -/
def bulkCommandValidate (operation : String) (externalId : Option String) :
    Except String String :=
  let op := capitalizeOp operation
  if !(validOps.contains op) then
    Except.error "Error: Operation must be Insert, Update, Upsert, or Delete."
  else if op == "Upsert" && jsFalsy externalId then
    Except.error "Error: External ID field is required for Upsert."
  else
    Except.ok op

/-- True on the status-endpoint GETs. -/
def isStatusFetch : RemoteCall → Bool
  | RemoteCall.statusFetch _ _ => true
  | _ => false

/-- True on the two result-endpoint GETs. -/
def isResultFetch : RemoteCall → Bool
  | RemoteCall.fetchSuccessful _ => true
  | RemoteCall.fetchFailed _ => true
  | _ => false

/-- Number of status-endpoint GETs in a call trace. -/
def countStatusFetches (t : List RemoteCall) : Nat :=
  (t.filter isStatusFetch).length

/-- Substring test (used to state that an error message does not mention
the job id). -/
def strContains (haystack needle : String) : Bool :=
  charsInfixOf needle.data haystack.data

/-- A mock transport where every step succeeds, parameterized by the
status endpoint's behaviour. -/
def baseEnv (statuses : Nat → Except String JobStatus) : Env :=
  { sObject := "Account"
    operation := "insert"
    externalIdFieldName := none
    queryResult := Except.ok ()
    describeResult := Except.ok ()
    readResult := Except.ok "Name\nAlice\n"
    createResult := Except.ok ⟨"750A"⟩
    uploadResult := Except.ok ()
    closeResult := Except.ok ()
    statuses := statuses
    successfulBody := Except.ok ""
    failedBody := Except.ok "" }

/-- Mock where the status endpoint never reports a terminal state. -/
def envTimeout : Env := baseEnv (fun _ => Except.ok ⟨"InProgress", 0, 0⟩)

/-- Mock reporting `JobComplete` immediately with zero processed and zero
failed records. -/
def envComplete00 : Env := baseEnv (fun _ => Except.ok ⟨"JobComplete", 0, 0⟩)

/-- Mock reporting `Failed` immediately with zero processed and zero
failed records. -/
def envFailed00 : Env := baseEnv (fun _ => Except.ok ⟨"Failed", 0, 0⟩)

/-- Mock reporting `JobComplete` with three processed and one failed
record, and well-formed result bodies. -/
def envResults : Env :=
  { baseEnv (fun _ => Except.ok ⟨"JobComplete", 3, 1⟩) with
    successfulBody := Except.ok "sf__Id,Name\n001,Alice\n"
    failedBody := Except.ok "sf__Id,sf__Error,Name\n,DUPLICATE,Bob\n" }

/-- Mock for a non-Upsert job that nonetheless carries an external-id
field. -/
def envInsertWithExtId : Env :=
  { baseEnv (fun _ => Except.ok ⟨"JobComplete", 0, 0⟩) with
    externalIdFieldName := some "Email__c" }

/-- Mock whose CSV file content is whitespace only. -/
def envEmptyPayload : Env :=
  { baseEnv (fun _ => Except.ok ⟨"JobComplete", 0, 0⟩) with
    readResult := Except.ok "   " }

/-- Status sequence that becomes terminal at the third status fetch. -/
def seqTerm2 : Nat → JobStatus := fun i =>
  if i < 2 then ⟨"InProgress", 0, 0⟩ else ⟨"JobComplete", 2, 0⟩

/-- Mock whose status endpoint follows `seqTerm2`. -/
def envTerm2 : Env := baseEnv (fun i => Except.ok (seqTerm2 i))

/-- Mock where the successful-results fetch fails outright while the
failed-results endpoint returns a malformed body whose record has fewer
fields than its header (a parse failure). -/
def envFetchFail : Env :=
  { baseEnv (fun _ => Except.ok ⟨"JobComplete", 3, 1⟩) with
    successfulBody := Except.error "socket hang up"
    failedBody := Except.ok "sf__Id,sf__Error\n001\n" }

/-- Mock where job creation returns id `750X` and the upload then fails. -/
def envUploadFail : Env :=
  { baseEnv (fun _ => Except.ok ⟨"JobComplete", 0, 0⟩) with
    createResult := Except.ok ⟨"750X"⟩
    uploadResult := Except.error "ECONNRESET" }

/-- Mock where the connection-test query fails. -/
def envQueryFail : Env :=
  { baseEnv (fun _ => Except.ok ⟨"JobComplete", 0, 0⟩) with
    queryResult := Except.error "down" }

/-- Mock whose first two status fetches return a non-terminal status and
whose third status fetch fails at the transport level. -/
def envPollFail : Env :=
  baseEnv (fun i =>
    if i < 2 then Except.ok ⟨"InProgress", 0, 0⟩
    else Except.error "ETIMEDOUT")

/-- Every call recorded by the poll loop is a status fetch. -/
theorem pollLoop_trace_statusFetch (statuses : Nat → Except String JobStatus)
    (jid : String) :
    ∀ fuel js, ∀ c ∈ (pollLoop statuses jid js fuel).2, isStatusFetch c = true := by
  intro fuel
  induction fuel with
  | zero =>
    intro js c hc
    simp only [pollLoop] at hc
    split at hc <;> simp at hc
  | succ f ih =>
    intro js c hc
    simp only [pollLoop] at hc
    split at hc
    · simp at hc
    · rcases hst : statuses (maxPollAttempts - f) with m | js'
      · rw [hst] at hc
        simp at hc
        simp [hc, isStatusFetch]
      · rw [hst] at hc
        simp at hc
        rcases hc with hc | hc
        · simp [hc, isStatusFetch]
        · exact ih js' c hc

/-- If the poll loop returns a status normally, that status is terminal. -/
theorem pollLoop_ok_terminal (statuses : Nat → Except String JobStatus)
    (jid : String) :
    ∀ fuel js js' t, pollLoop statuses jid js fuel = (Except.ok js', t) →
      isTerminalState js'.state = true := by
  intro fuel
  induction fuel with
  | zero =>
    intro js js' t h
    simp only [pollLoop] at h
    split at h
    · rename_i hterm
      cases h
      exact hterm
    · simp at h
  | succ f ih =>
    intro js js' t h
    simp only [pollLoop] at h
    split at h
    · rename_i hterm
      cases h
      exact hterm
    · rcases hst : statuses (maxPollAttempts - f) with m | js'' <;> rw [hst] at h
      · simp at h
      · simp only [] at h
        obtain ⟨h1, h2⟩ := Prod.mk.injEq .. ▸ h
        exact ih js'' js' (pollLoop statuses jid js'' f).2 (by rw [← h1])

/-- If the status endpoint only ever returns non-terminal statuses, the
poll loop burns all its fuel, fails with the poll-timeout error, and
issues exactly `fuel` further status fetches. -/
theorem pollLoop_timeout (statuses : Nat → Except String JobStatus)
    (jid : String)
    (hall : ∀ i, ∃ s, statuses i = Except.ok s ∧ isTerminalState s.state = false) :
    ∀ fuel js, isTerminalState js.state = false →
      (pollLoop statuses jid js fuel).1 =
        Except.error "Job status polling timed out after 5 minutes." ∧
      (pollLoop statuses jid js fuel).2.length = fuel := by
  intro fuel
  induction fuel with
  | zero =>
    intro js hjs
    simp [pollLoop, hjs]
  | succ f ih =>
    intro js hjs
    obtain ⟨s, hs, hterm⟩ := hall (maxPollAttempts - f)
    have ihh := ih s hterm
    simp only [pollLoop, hjs, hs, Bool.false_eq_true, if_false]
    simp [ihh.1, ihh.2]

/-- If the first terminal status in the (all-successful) status sequence
`seq` is at index `k`, the poll loop started at index
`maxPollAttempts - fuel` returns that status and issues one status fetch
per intervening index. -/
theorem pollLoop_first_terminal (seq : Nat → JobStatus) (jid : String) (k : Nat)
    (hk : isTerminalState (seq k).state = true)
    (hlt : ∀ i, i < k → isTerminalState (seq i).state = false)
    (hk60 : k ≤ maxPollAttempts) :
    ∀ fuel, fuel ≤ maxPollAttempts → maxPollAttempts - fuel ≤ k →
      (pollLoop (fun i => Except.ok (seq i)) jid (seq (maxPollAttempts - fuel)) fuel).1
        = Except.ok (seq k) ∧
      (pollLoop (fun i => Except.ok (seq i)) jid (seq (maxPollAttempts - fuel)) fuel).2.length
        = k - (maxPollAttempts - fuel) := by
  intro fuel
  induction fuel with
  | zero =>
    intro _ hle
    have hke : k = maxPollAttempts := by omega
    rw [← hke]
    simp [pollLoop, hk]
  | succ f ih =>
    intro hf hle
    by_cases hjk : maxPollAttempts - (f + 1) = k
    · rw [hjk]
      simp [pollLoop, hk]
    · have hltk : maxPollAttempts - (f + 1) < k := by omega
      have hnt := hlt _ hltk
      have hidx : maxPollAttempts - f = (maxPollAttempts - (f + 1)) + 1 := by omega
      have ihh := ih (by omega) (by omega)
      rw [hidx] at ihh
      simp only [pollLoop, hnt, Bool.false_eq_true, if_false]
      rw [hidx]
      simp [ihh.1, ihh.2]
      omega

/-- If the status endpoint returns only non-terminal statuses below index
`i` and its `i`-th fetch fails, the poll loop started at an index below
`i` propagates the in-loop status-check error of `lib/bulk.js`
line 86. -/
theorem pollLoop_fetch_error (statuses : Nat → Except String JobStatus)
    (jid : String) (seq : Nat → JobStatus) (i : Nat) (m : String)
    (hlt : ∀ j, j < i → statuses j = Except.ok (seq j) ∧
      isTerminalState (seq j).state = false)
    (hsi : statuses i = Except.error m)
    (hi60 : i ≤ maxPollAttempts) :
    ∀ fuel, fuel ≤ maxPollAttempts → maxPollAttempts - fuel < i →
      (pollLoop statuses jid (seq (maxPollAttempts - fuel)) fuel).1 =
        Except.error ("Error checking job status: " ++ m) := by
  intro fuel
  induction fuel with
  | zero =>
    intro hf hlt2
    omega
  | succ f ih =>
    intro hf hlt2
    have hnt := (hlt _ hlt2).2
    by_cases hji : maxPollAttempts - f = i
    · simp only [pollLoop, hnt, Bool.false_eq_true, if_false, hji, hsi]
    · have hlti : maxPollAttempts - f < i := by omega
      have hst := (hlt _ hlti).1
      have hidx : maxPollAttempts - f = (maxPollAttempts - (f + 1)) + 1 := by
        omega
      have ihh := ih (by omega) (by omega)
      rw [hidx] at ihh
      simp only [pollLoop, hnt, Bool.false_eq_true, if_false, hst]
      rw [hidx]
      simpa using ihh

/-- A status fetch is not a result fetch. -/
theorem isResultFetch_false_of_statusFetch (c : RemoteCall)
    (h : isStatusFetch c = true) : isResultFetch c = false := by
  cases c <;> simp [isStatusFetch, isResultFetch] at h ⊢

/-- The outer catch changes only the result field, and only on error. -/
theorem runBulkApiJob_parts (env : Env) :
    (runBulkApiJob env).calls = (runBulkInner env).calls ∧
    (runBulkApiJob env).successfulResults = (runBulkInner env).successfulResults ∧
    (runBulkApiJob env).failedResults = (runBulkInner env).failedResults ∧
    (runBulkApiJob env).diagnostics = (runBulkInner env).diagnostics := by
  unfold runBulkApiJob
  rcases hr : (runBulkInner env).result with m | js <;> simp [hr]

/-- A normal return passes through the outer catch unchanged. -/
theorem runBulkApiJob_result_ok (env : Env) (js : JobStatus) :
    (runBulkApiJob env).result = Except.ok js ↔
      (runBulkInner env).result = Except.ok js := by
  unfold runBulkApiJob
  rcases hr : (runBulkInner env).result with m | js' <;> simp [hr]

/-- An inner error is rethrown with the fixed outer prefix. -/
theorem runBulkApiJob_result_error (env : Env) (m : String)
    (h : (runBulkInner env).result = Except.error m) :
    (runBulkApiJob env).result =
      Except.error ("Bulk API job failed: " ++ m) := by
  unfold runBulkApiJob
  simp [h]

/-- Characterization of a run in which every transport step succeeds and
the status sequence `seq` first becomes terminal at index `k` within the
poll ceiling: the orchestrator returns `seq k`, issues exactly `k + 1`
status fetches, and processes results exactly when the terminal status
reports a nonzero processed or failed count. -/
theorem runBulkInner_happy (env : Env) (csv : String) (jinfo : JobInfo)
    (seq : Nat → JobStatus) (k : Nat)
    (hq : env.queryResult = Except.ok ())
    (hd : env.describeResult = Except.ok ())
    (hr : env.readResult = Except.ok csv)
    (hne : (jsTrim csv == "") = false)
    (hc : env.createResult = Except.ok jinfo)
    (hu : env.uploadResult = Except.ok ())
    (hcl : env.closeResult = Except.ok ())
    (hs : env.statuses = fun i => Except.ok (seq i))
    (hk : isTerminalState (seq k).state = true)
    (hlt : ∀ i, i < k → isTerminalState (seq i).state = false)
    (hk60 : k ≤ maxPollAttempts) :
    (runBulkInner env).result = Except.ok (seq k) ∧
    countStatusFetches (runBulkInner env).calls = k + 1 ∧
    (if 0 < (seq k).numberRecordsProcessed ∨ 0 < (seq k).numberRecordsFailed then
       (runBulkInner env).successfulResults =
           (fetchResultRows env.successfulBody "successful").1 ∧
       (runBulkInner env).failedResults =
           (fetchResultRows env.failedBody "failed").1 ∧
       (runBulkInner env).diagnostics =
           (fetchResultRows env.successfulBody "successful").2 ++
           (fetchResultRows env.failedBody "failed").2 ∧
       RemoteCall.fetchSuccessful jinfo.id ∈ (runBulkInner env).calls ∧
       RemoteCall.fetchFailed jinfo.id ∈ (runBulkInner env).calls
     else
       (runBulkInner env).successfulResults = [] ∧
       (runBulkInner env).failedResults = [] ∧
       (runBulkInner env).diagnostics = [] ∧
       ∀ c ∈ (runBulkInner env).calls, isResultFetch c = false) := by
  have hfirst := pollLoop_first_terminal seq jinfo.id k hk hlt hk60
    maxPollAttempts (le_refl _) (by omega)
  rw [Nat.sub_self] at hfirst
  have htrace := pollLoop_trace_statusFetch (fun i => Except.ok (seq i))
    jinfo.id maxPollAttempts (seq 0)
  set pl := pollLoop (fun i => Except.ok (seq i)) jinfo.id (seq 0) maxPollAttempts
    with hpl
  have hp : pl = (Except.ok (seq k), pl.2) := by
    rw [← hfirst.1]
  simp only [runBulkInner, hq, hd, hr, hne, hc, hu, hcl, hs, Bool.false_eq_true,
    if_false]
  rw [← hpl, hp]
  have hlen : pl.2.length = k := by
    have := hfirst.2
    omega
  have hcount : (pl.2.filter isStatusFetch).length = k := by
    rw [List.filter_eq_self.mpr (fun c hc => htrace c hc), hlen]
  by_cases hcond : 0 < (seq k).numberRecordsProcessed ∨ 0 < (seq k).numberRecordsFailed
  · simp only [if_pos hcond]
    refine ⟨by simp, ?_, by simp⟩
    simp [countStatusFetches, List.filter_append, List.filter_cons,
      List.filter_nil, isStatusFetch, hcount]
  · simp only [if_neg hcond]
    refine ⟨by simp, ?_, ?_⟩
    · simp [countStatusFetches, List.filter_append, List.filter_cons,
        List.filter_nil, isStatusFetch, hcount]
    · refine ⟨by simp, by simp, by simp, ?_⟩
      intro c hc
      simp only [List.mem_cons] at hc
      rcases hc with hc | hc | hc | hc | hc | hc | hc
      · simp [hc, isResultFetch]
      · simp [hc, isResultFetch]
      · simp [hc, isResultFetch]
      · simp [hc, isResultFetch]
      · simp [hc, isResultFetch]
      · simp [hc, isResultFetch]
      · exact isResultFetch_false_of_statusFetch c (htrace c hc)

/-- Analysis of every normal (non-throwing) run, over arbitrary transport
behaviour: the returned status is terminal, and result-endpoint calls are
issued exactly when the terminal status reports a nonzero processed or
failed count. -/
theorem runBulkInner_ok_cases (env : Env) (js : JobStatus)
    (h : (runBulkInner env).result = Except.ok js) :
    isTerminalState js.state = true ∧
    ((0 < js.numberRecordsProcessed ∨ 0 < js.numberRecordsFailed) →
      ∃ jid, RemoteCall.fetchSuccessful jid ∈ (runBulkInner env).calls) ∧
    (¬(0 < js.numberRecordsProcessed ∨ 0 < js.numberRecordsFailed) →
      ∀ c ∈ (runBulkInner env).calls, isResultFetch c = false) := by
  rcases hq : env.queryResult with mq | uq
  · simp [runBulkInner, hq] at h
  rcases hd : env.describeResult with md | ud
  · simp [runBulkInner, hq, hd] at h
  rcases hr : env.readResult with mr | csv
  · simp [runBulkInner, hq, hd, hr] at h
  rcases htrim : jsTrim csv == "" with _ | _
  case true => simp [runBulkInner, hq, hd, hr, htrim] at h
  rcases hc : env.createResult with mc | jinfo
  · simp [runBulkInner, hq, hd, hr, htrim, hc] at h
  rcases hu : env.uploadResult with mu | uu
  · simp [runBulkInner, hq, hd, hr, htrim, hc, hu] at h
  rcases hcl : env.closeResult with mcl | ucl
  · simp [runBulkInner, hq, hd, hr, htrim, hc, hu, hcl] at h
  rcases hst : env.statuses 0 with mst | js0
  · simp [runBulkInner, hq, hd, hr, htrim, hc, hu, hcl, hst] at h
  rcases hp : pollLoop env.statuses jinfo.id js0 maxPollAttempts with ⟨rm | rjs, pt⟩
  · simp [runBulkInner, hq, hd, hr, htrim, hc, hu, hcl, hst, hp] at h
  by_cases hcond : 0 < rjs.numberRecordsProcessed ∨ 0 < rjs.numberRecordsFailed
  · have hj : rjs = js := by
      simp [runBulkInner, hq, hd, hr, htrim, hc, hu, hcl, hst, hp, hcond] at h
      exact h
    subst hj
    refine ⟨pollLoop_ok_terminal env.statuses jinfo.id maxPollAttempts js0 rjs pt hp,
      fun _ => ⟨jinfo.id, ?_⟩, fun hn => absurd hcond hn⟩
    simp [runBulkInner, hq, hd, hr, htrim, hc, hu, hcl, hst, hp, hcond]
  · have hj : rjs = js := by
      simp [runBulkInner, hq, hd, hr, htrim, hc, hu, hcl, hst, hp, hcond] at h
      exact h
    subst hj
    refine ⟨pollLoop_ok_terminal env.statuses jinfo.id maxPollAttempts js0 rjs pt hp,
      fun hy => absurd hy hcond, fun _ => ?_⟩
    intro c hc2
    simp only [runBulkInner, hq, hd, hr, htrim, hc, hu, hcl, hst, hp, hcond,
      Bool.false_eq_true, if_false, List.mem_cons] at hc2
    rcases hc2 with hc2 | hc2 | hc2 | hc2 | hc2 | hc2 | hc2 <;>
      first
        | (subst hc2; rfl)
        | exact isResultFetch_false_of_statusFetch c
            (pollLoop_trace_statusFetch env.statuses jinfo.id maxPollAttempts js0 c
              (by rw [hp]; exact hc2))

/-- C1 (amended): for every run whose steps through close succeed and
whose status endpoint returns only non-terminal statuses, the in-loop
poll attempts never exceed the ceiling of 60, the run fails with the
poll-timeout error wrapped by the outer catch, and the total number of
status-fetch calls observed is exactly `maxPollAttempts + 1 = 61` (one
initial status fetch before the loop plus exactly the ceiling of in-loop
poll fetches). -/
theorem claim_C1 (env : Env) (csv : String) (jinfo : JobInfo)
    (hq : env.queryResult = Except.ok ())
    (hd : env.describeResult = Except.ok ())
    (hr : env.readResult = Except.ok csv)
    (hne : (jsTrim csv == "") = false)
    (hc : env.createResult = Except.ok jinfo)
    (hu : env.uploadResult = Except.ok ())
    (hcl : env.closeResult = Except.ok ())
    (hs : ∀ i, ∃ s, env.statuses i = Except.ok s ∧
      isTerminalState s.state = false) :
    (runBulkApiJob env).result = Except.error
      "Bulk API job failed: Job status polling timed out after 5 minutes." ∧
    countStatusFetches (runBulkApiJob env).calls = maxPollAttempts + 1 := by
  obtain ⟨s0, hs0, ht0⟩ := hs 0
  have hto := pollLoop_timeout env.statuses jinfo.id hs maxPollAttempts s0 ht0
  have htrace := pollLoop_trace_statusFetch env.statuses jinfo.id
    maxPollAttempts s0
  set pl := pollLoop env.statuses jinfo.id s0 maxPollAttempts with hpl
  have hp : pl =
      (Except.error "Job status polling timed out after 5 minutes.", pl.2) := by
    rw [← hto.1]
  have hcount : (pl.2.filter isStatusFetch).length = maxPollAttempts := by
    rw [List.filter_eq_self.mpr (fun c hcc => htrace c hcc)]
    exact hto.2
  have hinner : (runBulkInner env).result =
      Except.error "Job status polling timed out after 5 minutes." ∧
      countStatusFetches (runBulkInner env).calls = maxPollAttempts + 1 := by
    simp only [runBulkInner, hq, hd, hr, hne, hc, hu, hcl, hs0,
      Bool.false_eq_true, if_false]
    rw [← hpl, hp]
    refine ⟨rfl, ?_⟩
    simp [countStatusFetches, List.filter_cons, isStatusFetch, hcount]
  refine ⟨?_, ?_⟩
  · exact (runBulkApiJob_result_error env _ hinner.1).trans (by decide)
  · rw [(runBulkApiJob_parts env).1]
    exact hinner.2

/-- C1 counterexample: with a status endpoint that never reports a
terminal state, the run fails with the poll-timeout error after 61
status-fetch calls in total, not 60 as the claim states (the claim's
ceiling counts only the in-loop poll fetches and misses the initial
status fetch issued before the loop). -/
theorem claim_C1_cex :
    (runBulkApiJob envTimeout).result = Except.error
      "Bulk API job failed: Job status polling timed out after 5 minutes." ∧
    countStatusFetches (runBulkApiJob envTimeout).calls = 61 ∧
    countStatusFetches (runBulkApiJob envTimeout).calls ≠ maxPollAttempts := by
  decide

/-- C1 witness: the amended theorem instantiated on the concrete
never-terminal mock. -/
theorem claim_C1_witness :
    (runBulkApiJob envTimeout).result = Except.error
      "Bulk API job failed: Job status polling timed out after 5 minutes." ∧
    countStatusFetches (runBulkApiJob envTimeout).calls = maxPollAttempts + 1 :=
  claim_C1 envTimeout "Name\nAlice\n" ⟨"750A"⟩ rfl rfl rfl (by decide) rfl rfl
    rfl (fun _ => ⟨⟨"InProgress", 0, 0⟩, rfl, rfl⟩)

/-- C2 (amended): in every normal run, result retrieval is performed if
and only if the terminal status reports `recordsProcessed > 0` or
`recordsFailed > 0`, regardless of the terminal state; in particular a
`JobComplete` job with both counts zero skips result retrieval. -/
theorem claim_C2 (env : Env) (js : JobStatus)
    (h : (runBulkApiJob env).result = Except.ok js) :
    (∃ c ∈ (runBulkApiJob env).calls, isResultFetch c = true) ↔
      (0 < js.numberRecordsProcessed ∨ 0 < js.numberRecordsFailed) := by
  have hin := (runBulkApiJob_result_ok env js).mp h
  obtain ⟨hterm, hpos, hneg⟩ := runBulkInner_ok_cases env js hin
  rw [(runBulkApiJob_parts env).1]
  constructor
  · rintro ⟨c, hcmem, hcf⟩
    by_contra hn
    have hfalse := hneg hn c hcmem
    rw [hfalse] at hcf
    exact Bool.false_ne_true hcf
  · intro hy
    obtain ⟨jid, hmem⟩ := hpos hy
    exact ⟨RemoteCall.fetchSuccessful jid, hmem, rfl⟩

/-- C2 counterexample: a job that terminates `JobComplete` with zero
processed and zero failed records returns normally and performs no
result retrieval at all, refuting the claim that retrieval is still
performed for such a job. -/
theorem claim_C2_cex :
    (runBulkApiJob envComplete00).result =
      Except.ok ⟨"JobComplete", 0, 0⟩ ∧
    ¬∃ c ∈ (runBulkApiJob envComplete00).calls, isResultFetch c = true := by
  decide

/-- C2 witness: the amended theorem instantiated on a mock that
terminates with three processed and one failed record. -/
theorem claim_C2_witness :
    (∃ c ∈ (runBulkApiJob envResults).calls, isResultFetch c = true) ↔
      (0 < (⟨"JobComplete", 3, 1⟩ : JobStatus).numberRecordsProcessed ∨
       0 < (⟨"JobComplete", 3, 1⟩ : JobStatus).numberRecordsFailed) :=
  claim_C2 envResults ⟨"JobComplete", 3, 1⟩ (by decide)

/-- C3 (amended): the `bulk` command's validation rejects exactly the
unknown operations and `Upsert` without an external-id value; a
specification with `operation != Upsert` that carries an external-id
field is not rejected (the field is forwarded to the job-creation
request). -/
theorem claim_C3 (op : String) (extId : Option String) :
    (∃ m, bulkCommandValidate op extId = Except.error m) ↔
      (validOps.contains (capitalizeOp op) = false ∨
        (capitalizeOp op = "Upsert" ∧ jsFalsy extId = true)) := by
  cases h1 : validOps.contains (capitalizeOp op)
  · have h1' : capitalizeOp op ∉ validOps := by simpa using h1
    simp [bulkCommandValidate, h1, h1']
  · cases h2 : capitalizeOp op == "Upsert" <;> cases h3 : jsFalsy extId <;>
      simp_all [bulkCommandValidate]

/-- C3 counterexample: an `insert` operation carrying an external-id
field passes CLI validation and the orchestration then issues the
job-creation call with the field included, refuting the claim that such
a specification is rejected before any remote call. -/
theorem claim_C3_cex :
    bulkCommandValidate "insert" (some "Email__c") = Except.ok "Insert" ∧
    RemoteCall.createJob "Account" "insert" (some "Email__c") ∈
      (runBulkApiJob envInsertWithExtId).calls := by
  decide

/-- C4 (amended): a payload that is empty after trimming makes the run
fail with the empty-payload error before job creation or upload, but
only after the liveness-probe query and the entity describe have already
been issued. -/
theorem claim_C4 (env : Env) (csv : String)
    (hq : env.queryResult = Except.ok ())
    (hd : env.describeResult = Except.ok ())
    (hr : env.readResult = Except.ok csv)
    (he : (jsTrim csv == "") = true) :
    (runBulkApiJob env).result =
      Except.error "Bulk API job failed: CSV file is empty." ∧
    (runBulkApiJob env).calls =
      [RemoteCall.query, RemoteCall.describe env.sObject] := by
  have hinner : (runBulkInner env).result = Except.error "CSV file is empty." ∧
      (runBulkInner env).calls =
        [RemoteCall.query, RemoteCall.describe env.sObject] := by
    constructor <;> simp [runBulkInner, hq, hd, hr, he]
  refine ⟨(runBulkApiJob_result_error env _ hinner.1).trans (by decide), ?_⟩
  rw [(runBulkApiJob_parts env).1]
  exact hinner.2

/-- C4 counterexample: with a whitespace-only payload the run fails with
the empty-payload error, yet its call trace is non-empty (the
liveness-probe query and the describe were issued first), refuting the
claim that no remote call of any kind precedes the failure. -/
theorem claim_C4_cex :
    (runBulkApiJob envEmptyPayload).result =
      Except.error "Bulk API job failed: CSV file is empty." ∧
    (runBulkApiJob envEmptyPayload).calls ≠ [] := by
  decide

/-- C4 witness: the amended theorem instantiated on the whitespace-only
payload mock. -/
theorem claim_C4_witness :
    (runBulkApiJob envEmptyPayload).result =
      Except.error "Bulk API job failed: CSV file is empty." ∧
    (runBulkApiJob envEmptyPayload).calls =
      [RemoteCall.query, RemoteCall.describe envEmptyPayload.sObject] :=
  claim_C4 envEmptyPayload "   " rfl rfl rfl (by decide)

/-- C5 (confirmed): when the status sequence first reaches a state in
`JobComplete`/`Failed`/`Aborted` at fetch `k` (within the ceiling), the
orchestrator keeps polling through every earlier non-terminal status,
returns that first terminal status, and issues exactly `k + 1` status
fetches in total — none after the terminal one. -/
theorem claim_C5 (env : Env) (csv : String) (jinfo : JobInfo)
    (seq : Nat → JobStatus) (k : Nat)
    (hq : env.queryResult = Except.ok ())
    (hd : env.describeResult = Except.ok ())
    (hr : env.readResult = Except.ok csv)
    (hne : (jsTrim csv == "") = false)
    (hc : env.createResult = Except.ok jinfo)
    (hu : env.uploadResult = Except.ok ())
    (hcl : env.closeResult = Except.ok ())
    (hs : env.statuses = fun i => Except.ok (seq i))
    (hk : isTerminalState (seq k).state = true)
    (hlt : ∀ i, i < k → isTerminalState (seq i).state = false)
    (hk60 : k ≤ maxPollAttempts) :
    (runBulkApiJob env).result = Except.ok (seq k) ∧
    countStatusFetches (runBulkApiJob env).calls = k + 1 := by
  obtain ⟨h1, h2, _⟩ := runBulkInner_happy env csv jinfo seq k hq hd hr hne hc
    hu hcl hs hk hlt hk60
  refine ⟨(runBulkApiJob_result_ok env (seq k)).mpr h1, ?_⟩
  rw [(runBulkApiJob_parts env).1]
  exact h2

/-- C5 witness: the theorem instantiated on a mock that is non-terminal
for the first two status fetches and terminal on the third. -/
theorem claim_C5_witness :
    (runBulkApiJob envTerm2).result = Except.ok (seqTerm2 2) ∧
    countStatusFetches (runBulkApiJob envTerm2).calls = 2 + 1 :=
  claim_C5 envTerm2 "Name\nAlice\n" ⟨"750A"⟩ seqTerm2 2 rfl rfl rfl (by decide)
    rfl rfl rfl rfl (by decide) (by decide) (by decide)

/-- C6 (confirmed): the result-body parser maps the header line to column
names and each later line to a row mapping (uncoerced strings); the
documented example yields exactly its two rows, and any body that is
empty after trimming parses to the empty sequence rather than an
error. -/
theorem claim_C6 :
    parseResultBody "id,status\n1,Accepted\n2,Rejected\n" =
      Except.ok [[("id", "1"), ("status", "Accepted")],
                 [("id", "2"), ("status", "Rejected")]] ∧
    parseResultBody "" = Except.ok [] ∧
    ∀ data : String, (jsTrim data == "") = true →
      parseResultBody data = Except.ok [] := by
  refine ⟨by decide, by decide, ?_⟩
  intro data hdata
  simp [parseResultBody, hdata]

/-- C6 witness: the trailing general clause instantiated on a
whitespace-only body. -/
theorem claim_C6_witness : parseResultBody " \n " = Except.ok [] :=
  claim_C6.2.2 " \n " (by decide)

/-- C7 (confirmed): once a run reaches a terminal status that triggers
result processing, a fetch failure or a parse failure on either results
endpoint is caught: it leaves that endpoint's collection empty, records
the step's diagnostic, does not prevent the other endpoint's fetch (each
collection is computed from its own endpoint's body, and both fetch
calls are issued), and is not fatal — the run still returns the job's
final status. -/
theorem claim_C7 (env : Env) (csv : String) (jinfo : JobInfo)
    (seq : Nat → JobStatus) (k : Nat)
    (hq : env.queryResult = Except.ok ())
    (hd : env.describeResult = Except.ok ())
    (hr : env.readResult = Except.ok csv)
    (hne : (jsTrim csv == "") = false)
    (hc : env.createResult = Except.ok jinfo)
    (hu : env.uploadResult = Except.ok ())
    (hcl : env.closeResult = Except.ok ())
    (hs : env.statuses = fun i => Except.ok (seq i))
    (hk : isTerminalState (seq k).state = true)
    (hlt : ∀ i, i < k → isTerminalState (seq i).state = false)
    (hk60 : k ≤ maxPollAttempts)
    (hcnt : 0 < (seq k).numberRecordsProcessed ∨
      0 < (seq k).numberRecordsFailed) :
    (runBulkApiJob env).result = Except.ok (seq k) ∧
    RemoteCall.fetchSuccessful jinfo.id ∈ (runBulkApiJob env).calls ∧
    RemoteCall.fetchFailed jinfo.id ∈ (runBulkApiJob env).calls ∧
    (runBulkApiJob env).successfulResults =
      (fetchResultRows env.successfulBody "successful").1 ∧
    (runBulkApiJob env).failedResults =
      (fetchResultRows env.failedBody "failed").1 ∧
    (∀ m, env.successfulBody = Except.error m →
      (runBulkApiJob env).successfulResults = [] ∧
      ("DEBUG: Failed to fetch/parse successful results: " ++ m) ∈
        (runBulkApiJob env).diagnostics) ∧
    (∀ m, env.failedBody = Except.error m →
      (runBulkApiJob env).failedResults = [] ∧
      ("DEBUG: Failed to fetch/parse failed results: " ++ m) ∈
        (runBulkApiJob env).diagnostics) ∧
    (∀ data m, env.successfulBody = Except.ok data →
      parseResultBody data = Except.error m →
      (runBulkApiJob env).successfulResults = [] ∧
      ("DEBUG: Failed to fetch/parse successful results: " ++ m) ∈
        (runBulkApiJob env).diagnostics) ∧
    (∀ data m, env.failedBody = Except.ok data →
      parseResultBody data = Except.error m →
      (runBulkApiJob env).failedResults = [] ∧
      ("DEBUG: Failed to fetch/parse failed results: " ++ m) ∈
        (runBulkApiJob env).diagnostics) := by
  obtain ⟨h1, _, h3⟩ := runBulkInner_happy env csv jinfo seq k hq hd hr hne hc
    hu hcl hs hk hlt hk60
  rw [if_pos hcnt] at h3
  obtain ⟨hsr, hfr, hdg, hms, hmf⟩ := h3
  obtain ⟨pc, ps, pf, pd⟩ := runBulkApiJob_parts env
  refine ⟨(runBulkApiJob_result_ok env (seq k)).mpr h1,
    by rw [pc]; exact hms, by rw [pc]; exact hmf,
    by rw [ps]; exact hsr, by rw [pf]; exact hfr, ?_, ?_, ?_, ?_⟩
  · intro m hm
    refine ⟨by rw [ps, hsr, hm]; rfl, ?_⟩
    rw [pd, hdg, hm]
    simp [fetchResultRows]
  · intro m hm
    refine ⟨by rw [pf, hfr, hm]; rfl, ?_⟩
    rw [pd, hdg, hm]
    simp [fetchResultRows]
  · intro data m hbody hparse
    refine ⟨?_, ?_⟩
    · rw [ps, hsr, hbody]
      simp [fetchResultRows, hparse]
    · rw [pd, hdg, hbody]
      simp [fetchResultRows, hparse]
  · intro data m hbody hparse
    refine ⟨?_, ?_⟩
    · rw [pf, hfr, hbody]
      simp [fetchResultRows, hparse]
    · rw [pd, hdg, hbody]
      simp [fetchResultRows, hparse]

/-- C7 witness: the theorem instantiated on a mock whose
successful-results fetch fails with `socket hang up` and whose
failed-results body fails to parse; each endpoint's collection is empty
and each diagnostic is recorded. -/
theorem claim_C7_witness :
    ((runBulkApiJob envFetchFail).successfulResults = [] ∧
      ("DEBUG: Failed to fetch/parse successful results: " ++ "socket hang up") ∈
        (runBulkApiJob envFetchFail).diagnostics) ∧
    ((runBulkApiJob envFetchFail).failedResults = [] ∧
      ("DEBUG: Failed to fetch/parse failed results: " ++
        "Invalid Record Length: expect 2, got 1") ∈
        (runBulkApiJob envFetchFail).diagnostics) := by
  have h := claim_C7 envFetchFail "Name\nAlice\n" ⟨"750A"⟩
    (fun _ => ⟨"JobComplete", 3, 1⟩) 0 rfl rfl rfl (by decide) rfl rfl rfl rfl
    (by decide) (fun i hi => absurd hi (Nat.not_lt_zero i)) (by decide)
    (by decide)
  exact ⟨h.2.2.2.2.2.1 "socket hang up" rfl,
    h.2.2.2.2.2.2.2.2 "sf__Id,sf__Error\n001\n"
      "Invalid Record Length: expect 2, got 1" rfl (by decide)⟩

/-- C8 (amended): every mid-flight failure — job creation, upload, close,
the initial status fetch, an in-loop status-check fetch, or the poll
timeout — propagates with a fixed step-identifying message wrapped by
the outer catch, but the remote job id is not included in the message
even when it is known. -/
theorem claim_C8 (env : Env) (csv : String) (jinfo : JobInfo)
    (hq : env.queryResult = Except.ok ())
    (hd : env.describeResult = Except.ok ())
    (hr : env.readResult = Except.ok csv)
    (hne : (jsTrim csv == "") = false) :
    (∀ m, env.createResult = Except.error m →
      (runBulkApiJob env).result =
        Except.error ("Bulk API job failed: " ++ ("Error creating job: " ++ m))) ∧
    (∀ m, env.createResult = Except.ok jinfo →
      env.uploadResult = Except.error m →
      (runBulkApiJob env).result =
        Except.error ("Bulk API job failed: " ++
          ("Error uploading CSV data: " ++ m))) ∧
    (∀ m, env.createResult = Except.ok jinfo →
      env.uploadResult = Except.ok () → env.closeResult = Except.error m →
      (runBulkApiJob env).result =
        Except.error ("Bulk API job failed: " ++ ("Error closing job: " ++ m))) ∧
    (∀ m, env.createResult = Except.ok jinfo →
      env.uploadResult = Except.ok () → env.closeResult = Except.ok () →
      env.statuses 0 = Except.error m →
      (runBulkApiJob env).result =
        Except.error ("Bulk API job failed: " ++
          ("Error retrieving job status: " ++ m))) ∧
    (∀ (seq : Nat → JobStatus) (i : Nat) (m : String),
      env.createResult = Except.ok jinfo →
      env.uploadResult = Except.ok () → env.closeResult = Except.ok () →
      (∀ j, j < i → env.statuses j = Except.ok (seq j) ∧
        isTerminalState (seq j).state = false) →
      env.statuses i = Except.error m → 1 ≤ i → i ≤ maxPollAttempts →
      (runBulkApiJob env).result =
        Except.error ("Bulk API job failed: " ++
          ("Error checking job status: " ++ m))) ∧
    ((∀ i, ∃ s, env.statuses i = Except.ok s ∧
        isTerminalState s.state = false) →
      env.createResult = Except.ok jinfo →
      env.uploadResult = Except.ok () → env.closeResult = Except.ok () →
      (runBulkApiJob env).result =
        Except.error ("Bulk API job failed: " ++
          "Job status polling timed out after 5 minutes.")) := by
  refine ⟨?_, ?_, ?_, ?_, ?_, ?_⟩
  · intro m hm
    refine runBulkApiJob_result_error env _ ?_
    simp [runBulkInner, hq, hd, hr, hne, hm]
  · intro m hcr hm
    refine runBulkApiJob_result_error env _ ?_
    simp [runBulkInner, hq, hd, hr, hne, hcr, hm]
  · intro m hcr hup hm
    refine runBulkApiJob_result_error env _ ?_
    simp [runBulkInner, hq, hd, hr, hne, hcr, hup, hm]
  · intro m hcr hup hclo hm
    refine runBulkApiJob_result_error env _ ?_
    simp [runBulkInner, hq, hd, hr, hne, hcr, hup, hclo, hm]
  · intro seq i m hcr hup hclo hlt hsi hi1 hi60
    refine runBulkApiJob_result_error env _ ?_
    have hs0 := (hlt 0 (by omega)).1
    have hperr := pollLoop_fetch_error env.statuses jinfo.id seq i m hlt hsi
      hi60 maxPollAttempts (le_refl _) (by omega)
    rw [Nat.sub_self] at hperr
    set pl := pollLoop env.statuses jinfo.id (seq 0) maxPollAttempts with hpl
    have hp : pl =
        (Except.error ("Error checking job status: " ++ m), pl.2) := by
      rw [← hperr]
    simp only [runBulkInner, hq, hd, hr, hne, hcr, hup, hclo, hs0,
      Bool.false_eq_true, if_false]
    rw [← hpl, hp]
  · intro hall hcr hup hclo
    refine runBulkApiJob_result_error env _ ?_
    obtain ⟨s0, hs0, ht0⟩ := hall 0
    have hto := pollLoop_timeout env.statuses jinfo.id hall maxPollAttempts
      s0 ht0
    set pl := pollLoop env.statuses jinfo.id s0 maxPollAttempts with hpl
    have hp : pl =
        (Except.error "Job status polling timed out after 5 minutes.",
          pl.2) := by
      rw [← hto.1]
    simp only [runBulkInner, hq, hd, hr, hne, hcr, hup, hclo, hs0,
      Bool.false_eq_true, if_false]
    rw [← hpl, hp]

/-- C8 counterexample: the upload step fails after job creation returned
id `750X`; the propagated message names the step but does not contain the
job id, refuting the claim that mid-flight errors carry the job id when
known. -/
theorem claim_C8_cex :
    (runBulkApiJob envUploadFail).result =
      Except.error "Bulk API job failed: Error uploading CSV data: ECONNRESET" ∧
    RemoteCall.uploadBatch "750X" ∈ (runBulkApiJob envUploadFail).calls ∧
    strContains "Bulk API job failed: Error uploading CSV data: ECONNRESET"
      "750X" = false := by
  decide

/-- C8 witness: the amended theorem's upload conjunct instantiated on the
failing-upload mock, and its in-loop status-check conjunct instantiated
on a mock whose third status fetch fails. -/
theorem claim_C8_witness :
    (runBulkApiJob envUploadFail).result =
      Except.error ("Bulk API job failed: " ++
        ("Error uploading CSV data: " ++ "ECONNRESET")) ∧
    (runBulkApiJob envPollFail).result =
      Except.error ("Bulk API job failed: " ++
        ("Error checking job status: " ++ "ETIMEDOUT")) := by
  refine ⟨(claim_C8 envUploadFail "Name\nAlice\n" ⟨"750X"⟩ rfl rfl rfl
    (by decide)).2.1 "ECONNRESET" rfl rfl, ?_⟩
  exact (claim_C8 envPollFail "Name\nAlice\n" ⟨"750A"⟩ rfl rfl rfl
    (by decide)).2.2.2.2.1 (fun _ => ⟨"InProgress", 0, 0⟩) 2 "ETIMEDOUT"
    rfl rfl rfl (fun j hj => ⟨by simp [envPollFail, baseEnv, hj], rfl⟩)
    (by decide) (by decide) (by decide)

/-- C9 (confirmed): whenever the orchestrator returns normally, the
returned status's state is one of `JobComplete`, `Failed`, `Aborted`; a
non-terminal state is never returned to the caller. -/
theorem claim_C9 (env : Env) (js : JobStatus)
    (h : (runBulkApiJob env).result = Except.ok js) :
    js.state = "JobComplete" ∨ js.state = "Failed" ∨ js.state = "Aborted" := by
  have hin := (runBulkApiJob_result_ok env js).mp h
  have hterm := (runBulkInner_ok_cases env js hin).1
  simpa [isTerminalState, Bool.or_eq_true, beq_iff_eq, or_assoc] using hterm

/-- C9 witness: the theorem instantiated on a mock whose job fails
immediately. -/
theorem claim_C9_witness :
    (⟨"Failed", 0, 0⟩ : JobStatus).state = "JobComplete" ∨
    (⟨"Failed", 0, 0⟩ : JobStatus).state = "Failed" ∨
    (⟨"Failed", 0, 0⟩ : JobStatus).state = "Aborted" :=
  claim_C9 envFailed00 ⟨"Failed", 0, 0⟩ (by decide)

/-- C10 (confirmed): every error thrown out of the orchestrator is
re-wrapped so that the caller-observed message is the fixed prefix
`Bulk API job failed: ` followed by the inner step message; no unwrapped
error escapes. -/
theorem claim_C10 (env : Env) (m : String)
    (h : (runBulkApiJob env).result = Except.error m) :
    ∃ inner, m = "Bulk API job failed: " ++ inner := by
  unfold runBulkApiJob at h
  rcases hr : (runBulkInner env).result with m' | js'
  · simp only [hr] at h
    simp only [Except.error.injEq] at h
    exact ⟨m', h.symm⟩
  · simp [hr] at h

/-- C10 witness: the theorem instantiated on a mock whose connection-test
query fails. -/
theorem claim_C10_witness :
    ∃ inner, "Bulk API job failed: Connection test failed: down" =
      "Bulk API job failed: " ++ inner :=
  claim_C10 envQueryFail "Bulk API job failed: Connection test failed: down"
    (by decide)

end SfUtils
